import Mathlib

set_option maxRecDepth 8192

/-!
Verification of the AdaptiveUI inter-process signaling protocol
(`src/adaptiveui/modules/server.py`) via a shallow embedding.

Modelling conventions:
* JSON values are the inductive `JValue` (null / string / integer / object);
  booleans and floats never occur in the protocol paths under study.
* Python dicts are association lists `List (String × JValue)` in insertion
  order with unique keys; `d[k] = v` is `dictSet` (replace in place or append),
  `d.get k` is `dlookup`.
* The external codecs are modelled by tagged constructors: `zlib.compress`
  wraps bytes in `Bytes.compressed`, `json.dumps` of an object produces
  `Bytes.json`; their library-guaranteed partial inverses `zlib.decompress`
  and `json.loads` unwrap, failing (`none`, i.e. a raised exception) on any
  other shape of input.  A concrete renderer `json_dumps_str` is kept so that
  the serialized byte size of a payload is a computable quantity.
* Nondeterministic environment inputs (`uuid.uuid4()`, `datetime.now()`,
  `randint` instance ids, `BuildConfigs.NAME`) are explicit parameters.
* Raised-and-caught exceptions on the server's per-connection path collapse
  to the observable outcome "connection closed without a reply", modelled as
  `none` fields of `HandleOutcome`.
-/

/-- A JSON value as it travels over the protocol. -/
inductive JValue where
  | null
  | str (s : String)
  | num (n : Int)
  | obj (entries : List (String × JValue))

/-- A Python dict with string keys, as an insertion-ordered association list. -/
abbrev Dict := List (String × JValue)

/-- Models `d.get k` / `d[k]`-style lookup (first matching key). -/
def dlookup {α : Type} : List (String × α) → String → Option α
  | [], _ => none
  | (k1, v) :: t, k => if k1 = k then some v else dlookup t k

/-- Python `d[k] = v`: replace the existing entry in place, else append. -/
def dictSet : Dict → String → JValue → Dict
  | [], k, v => [(k, v)]
  | (k1, v1) :: t, k, v => if k1 = k then (k, v) :: t else (k1, v1) :: dictSet t k v

/-- Python `d.update(u)` and `d | u`: entries of `u` win, appended in order. -/
def dict_update (d u : Dict) : Dict :=
  u.foldl (fun acc kv => dictSet acc kv.1 kv.2) d

/-- Every key of `b` also occurs in `a` (no recursion into values). -/
def keysIncluded (b a : Dict) : Bool :=
  b.all (fun kv => (dlookup a kv.1).isSome)

mutual
/-- Python `==` on the JSON fragment in use: scalars compare by value,
dicts compare as unordered key/value maps, cross-type comparison is `False`. -/
def pyEq : JValue → JValue → Bool
  | JValue.null, JValue.null => true
  | JValue.str a, JValue.str b => a == b
  | JValue.num a, JValue.num b => a == b
  | JValue.obj a, JValue.obj b => pyEqEntries a b && keysIncluded b a
  | _, _ => false

/-- Every entry of the first dict has an equal value under the same key in
the second dict. -/
def pyEqEntries : List (String × JValue) → List (String × JValue) → Bool
  | [], _ => true
  | (k, v) :: t, b =>
    (match dlookup b k with
     | some w => pyEq v w
     | none => false) && pyEqEntries t b
end

mutual
/-- Models `json.dumps` with default separators, for measuring serialized size.
String escaping is not modelled; every concrete payload we evaluate is
escape-free ASCII. -/
def json_dumps_str : JValue → String
  | JValue.null => "null"
  | JValue.str s => "\"" ++ s ++ "\""
  | JValue.num n => toString n
  | JValue.obj l => "\x7b" ++ json_dumps_entries l ++ "\x7d"

/-- Comma-separated `"key": value` renderings of a dict's entries. -/
def json_dumps_entries : List (String × JValue) → String
  | [] => ""
  | [(k, v)] => "\"" ++ k ++ "\": " ++ json_dumps_str v
  | (k, v) :: t => "\"" ++ k ++ "\": " ++ json_dumps_str v ++ ", " ++ json_dumps_entries t
end

/-! ## Reserved signal names (`InternalSignals`) -/

/-- Source constant `InternalSignals.ERROR_SIGNAL_IGNORED`. -/
def ERROR_SIGNAL_IGNORED : String := "__error_signal_ignored"

/-- Source constant `InternalSignals.ERROR_SIGNAL_NOT_FOUND`. -/
def ERROR_SIGNAL_NOT_FOUND : String := "__error_signal_not_found"

/-- Source constant `InternalSignals.ERROR_REQUIREMENTS_MISMATCH`. -/
def ERROR_REQUIREMENTS_MISMATCH : String := "__error_requirements_mismatch"

/-- Source constant `InternalSignals.SUCCESS_SIGNAL_PROCESSED`. -/
def SUCCESS_SIGNAL_PROCESSED : String := "__success_signal_processed"

/-- Source constant `InternalSignals.FETCH_SOCKET_METADATA`. -/
def FETCH_SOCKET_METADATA : String := "__fetch_socket_metadata"

/-! ## Metadata assembly -/

/-- Models `generate_metadata(request_id)`.  The module-level `INSTANCE_ID`, the
configured application name, the wall clock and the freshly drawn
`uuid.uuid4()` are explicit inputs.  A `request_id` of `JValue.null` is
Python's `None` default, in which case the fresh uuid is used. -/
def generate_metadata (request_id : JValue) (freshUuid timestamp : String)
    (instance_id : Int) (appName : String) : Dict :=
  [("instance_id", JValue.num instance_id),
   ("name", JValue.str appName),
   ("timestamp", JValue.str timestamp),
   ("request_id", match request_id with
                  | JValue.null => JValue.str freshUuid
                  | v => v)]

/-- Models `SocketServer._get_metadata(request_id)`: `generate_metadata` plus an
`attached` dict accumulated by updating an empty dict with each registered
metadata provider's output in registration order. -/
def get_metadata (request_id : JValue) (freshUuid timestamp : String)
    (instance_id : Int) (appName : String) (extra : List Dict) : Dict :=
  dictSet (generate_metadata request_id freshUuid timestamp instance_id appName)
    "attached" (JValue.obj (extra.foldl dict_update []))

/-! ## Transport codec -/

/-- A byte string on the wire, classified by provenance: the UTF-8 JSON
rendering of an object, a zlib-compressed byte string, or bytes that are
neither (on which both `json.loads` and `zlib.decompress` raise). -/
inductive Bytes where
  | json (d : Dict)
  | compressed (inner : Bytes)
  | junk (s : String)

/-- Models `zlib.compress`. -/
def zlib_compress (b : Bytes) : Bytes := Bytes.compressed b

/-- Models `zlib.decompress`: inverts `zlib.compress`, raises (`none`) on anything
that is not zlib data. -/
def zlib_decompress : Bytes → Option Bytes
  | Bytes.compressed b => some b
  | _ => none

/-- Models `json.dumps` of an object, as bytes. -/
def json_dumps (d : Dict) : Bytes := Bytes.json d

/-- Models `json.loads`: inverts `json_dumps`, raises (`none`) otherwise.  A payload
whose JSON text is not an object is folded into the failure case: on such a
payload the subsequent `data.get(...)` attribute access raises, which is
observationally the same dropped connection. -/
def json_loads : Bytes → Option Dict
  | Bytes.json d => some d
  | _ => none

/-- The receive-side decode used by both `SocketServer.handle_client` and
`SocketClient._receive_data`: `json.loads(zlib.decompress(raw).decode())`,
with any raised exception as `none`. -/
def decode_payload (b : Bytes) : Option Dict :=
  (zlib_decompress b).bind json_loads

/-! ## dict_compare -/

/-- Models `dict_compare(d1, d2)`: `(added, removed, modified, same)`.  Python's key
sets are modelled as key lists (in `d1`- resp. `d2`-order); `modified` maps
each shared key with differing values to its `(d1[o], d2[o])` pair. -/
def dict_compare (d1 d2 : Dict) :
    List String × List String × List (String × (JValue × JValue)) × List String :=
  let d1_keys := d1.map Prod.fst
  let d2_keys := d2.map Prod.fst
  let shared_keys := d1_keys.filter (fun k => d2_keys.contains k)
  let added := d1_keys.filter (fun k => !(d2_keys.contains k))
  let removed := d2_keys.filter (fun k => !(d1_keys.contains k))
  let modified :=
    (shared_keys.filter (fun k =>
        !(pyEq ((dlookup d1 k).getD JValue.null) ((dlookup d2 k).getD JValue.null)))).map
      (fun k => (k, ((dlookup d1 k).getD JValue.null, (dlookup d2 k).getD JValue.null)))
  let same := shared_keys.filter (fun k =>
    pyEq ((dlookup d1 k).getD JValue.null) ((dlookup d2 k).getD JValue.null))
  (added, removed, modified, same)

/-! ## Server state and dispatch -/

/-- The read-only server configuration a worker sees: the signal registry
(name to handler-defaults; the handler callable itself is external and its
invocation is recorded, not executed), the requirements descriptor, and the
process instance id. -/
structure ServerState where
  signals : List (String × Dict)
  requires : Dict
  instance_id : Int

/-- The `params` dict `SocketServer._send` is called with on each branch of
`handle_client`, kept structural: each constructor records the message
template of the corresponding f-string together with its interpolated
values. -/
inductive ReplyMsg where
  | ignoringSelf
  | mismatchMsg (notMet : List (String × (JValue × JValue)))
  | emptyParams
  | processedOk (signal : JValue)
  | notFoundMsg (signal : JValue)

/-- Observable outcome of one `handle_client` cycle: the reply handed to
`_send` as `(signal, params, request_id)` — `none` when an exception was
raised and the connection closed silently — and the recorded handler
invocation `(signal name, keyword arguments)`, if any. -/
structure HandleOutcome where
  reply : Option (String × ReplyMsg × JValue)
  invoked : Option (String × Dict)

/-- Models `params.get("__socket_metadata", {}).get("instance_id", "<UNKNOWN>") ==
INSTANCE_ID`: `some` of the comparison result, `none` when the stored
`__socket_metadata` is not a dict so that `.get` raises. -/
def self_origin_check (p : Dict) (instance_id : Int) : Option Bool :=
  match dlookup p "__socket_metadata" with
  | none => some (pyEq (JValue.str "<UNKNOWN>") (JValue.num instance_id))
  | some (JValue.obj m) =>
      some (pyEq ((dlookup m "instance_id").getD (JValue.str "<UNKNOWN>"))
                 (JValue.num instance_id))
  | some _ => none

/-- Models `{k: params.get(k, v) for k, v in function_params.items()}`. -/
def scoped_kwargs (p defaults : Dict) : Dict :=
  defaults.map (fun kv => (kv.1, (dlookup p kv.1).getD kv.2))

/-- Models `SocketServer.handle_client`, from the received bytes to the observable
outcome.  Branches in source order: decode, self-origin filter,
requirements check, `FETCH_SOCKET_METADATA`, registered signal, not-found.
Exception paths (decode failure, missing or non-dict `params`, non-dict
`__socket_metadata`, non-dict `__socket_requires` reaching `dict_compare`)
all end as `⟨none, none⟩`: logged and the connection closed without reply. -/
def handle_client (st : ServerState) (input : Bytes) : HandleOutcome :=
  match decode_payload input with
  | none => ⟨none, none⟩
  | some d =>
    match dlookup d "params" with
    | some (JValue.obj p) =>
      let signal : JValue := (dlookup d "signal").getD JValue.null
      let rid : JValue := (dlookup p "request_id").getD JValue.null
      match self_origin_check p st.instance_id with
      | none => ⟨none, none⟩
      | some true =>
          ⟨some (ERROR_SIGNAL_IGNORED, ReplyMsg.ignoringSelf, rid), none⟩
      | some false =>
          let reqVal : JValue := (dlookup p "__socket_requires").getD (JValue.obj [])
          if !(pyEq reqVal (JValue.obj st.requires)) then
            match reqVal with
            | JValue.obj r1 =>
                ⟨some (ERROR_REQUIREMENTS_MISMATCH,
                       ReplyMsg.mismatchMsg (dict_compare r1 st.requires).2.2.1, rid),
                 none⟩
            | _ => ⟨none, none⟩
          else if pyEq signal (JValue.str FETCH_SOCKET_METADATA) then
            ⟨some (SUCCESS_SIGNAL_PROCESSED, ReplyMsg.emptyParams, rid), none⟩
          else
            match signal with
            | JValue.str s =>
              match dlookup st.signals s with
              | some defaults =>
                  ⟨some (SUCCESS_SIGNAL_PROCESSED, ReplyMsg.processedOk signal, rid),
                   some (s, scoped_kwargs p defaults)⟩
              | none =>
                  ⟨some (ERROR_SIGNAL_NOT_FOUND, ReplyMsg.notFoundMsg signal, rid), none⟩
            | _ => ⟨some (ERROR_SIGNAL_NOT_FOUND, ReplyMsg.notFoundMsg signal, rid), none⟩
    | _ => ⟨none, none⟩

/-- Models `SocketServer._send(conn, signal, params, request_id)`:
`zlib.compress(json.dumps({"signal": signal, "params": params} |
{"__socket_metadata": self._get_metadata(request_id)}))`. -/
def SocketServer_send (signal : String) (params : Dict) (request_id : JValue)
    (freshUuid timestamp : String) (instance_id : Int) (appName : String)
    (extra : List Dict) : Bytes :=
  zlib_compress (json_dumps (dict_update
    [("signal", JValue.str signal), ("params", JValue.obj params)]
    [("__socket_metadata",
      JValue.obj (get_metadata request_id freshUuid timestamp instance_id appName extra))]))

/-- The `__socket_metadata` dict carried by the reply `handle_client` sends,
i.e. `_get_metadata` applied to the `request_id` argument each branch passes
to `_send`; `none` when no reply is sent. -/
def handle_reply_metadata (st : ServerState) (input : Bytes)
    (freshUuid timestamp : String) (appName : String) (extra : List Dict) :
    Option Dict :=
  (handle_client st input).reply.map
    (fun r => get_metadata r.2.2 freshUuid timestamp st.instance_id appName extra)

/-- Models `SocketServer.__init__`: the port must lie in `[49152, 65535]`, else a
`ValueError` aborts construction. -/
def SocketServer_init (signals : List (String × Dict)) (port : Int)
    (requires : Dict) (instance_id : Int) : Except String ServerState :=
  if port < 49152 ∨ port > 65535 then
    Except.error "Port number must be between 49152 and 65535"
  else
    Except.ok ⟨signals, requires, instance_id⟩

/-! ## Client -/

/-- The two in-place writes `SocketClient.send` performs on the
caller-supplied `params` before encoding:
`params["__socket_metadata"] = generate_metadata()` then
`params["__socket_requires"] = self.requires`. -/
def SocketClient_send_params (params meta requires : Dict) : Dict :=
  dictSet (dictSet params "__socket_metadata" (JValue.obj meta))
    "__socket_requires" (JValue.obj requires)

/-- The bytes `SocketClient.send` puts on the wire:
`zlib.compress(json.dumps({"signal": signal, "params": params}))`. -/
def SocketClient_send_wire (signal : String) (params : Dict) : Bytes :=
  zlib_compress (json_dumps [("signal", JValue.str signal), ("params", JValue.obj params)])

/-- The dict object bound to `SocketClient.send`'s mutable `params={}`
default argument.  It is created once at function definition time and shared
by every call that omits `params`. -/
structure ClientSendState where
  defaultParams : Dict

/-- Models `SocketClient.send`'s parameter preparation with the default-argument
aliasing made explicit: an omitted `params` uses the shared default dict and
leaves it mutated for the next such call. -/
def SocketClient_send_model (st : ClientSendState) (explicitParams : Option Dict)
    (meta requires : Dict) : Dict × ClientSendState :=
  match explicitParams with
  | some p => (SocketClient_send_params p meta requires, st)
  | none =>
      let p := SocketClient_send_params st.defaultParams meta requires
      (p, ⟨p⟩)

/-- Python exceptions surfaced by `SocketClient.get_server_info`. -/
inductive PyExc where
  | typeError
  | keyError

/-- `SocketClient.get_server_info`: `self.send(FETCH_SOCKET_METADATA)`
followed by `data["__socket_metadata"]`.  When `send` returned no result
(`None`), the subscript raises `TypeError`; when the reply lacks the key it
raises `KeyError`. -/
def get_server_info (sendResult : Option Dict) : Except PyExc JValue :=
  match sendResult with
  | none => Except.error PyExc.typeError
  | some d =>
    match dlookup d "__socket_metadata" with
    | some v => Except.ok v
    | none => Except.error PyExc.keyError

/-! ## Association-list lemmas -/

/-- Looking up the key just set returns the new value. -/
theorem dlookup_dictSet_self (d : Dict) (k : String) (v : JValue) :
    dlookup (dictSet d k v) k = some v := by
  induction d with
  | nil => simp [dictSet, dlookup]
  | cons kv t ih =>
      obtain ⟨k1, v1⟩ := kv
      by_cases h : k1 = k
      · simp [dictSet, h, dlookup]
      · simp [dictSet, h, dlookup, ih]

/-- Setting one key leaves every other key's binding unchanged. -/
theorem dlookup_dictSet_ne (d : Dict) (k k2 : String) (v : JValue) (h : k2 ≠ k) :
    dlookup (dictSet d k v) k2 = dlookup d k2 := by
  induction d with
  | nil => simp [dictSet, dlookup, Ne.symm h]
  | cons kv t ih =>
      obtain ⟨k1, v1⟩ := kv
      by_cases h1 : k1 = k
      · subst h1
        simp [dictSet, dlookup, Ne.symm h]
      · simp only [dictSet, if_neg h1]
        by_cases h2 : k1 = k2
        · simp [dlookup, h2]
        · simp [dlookup, h2, ih]

/-- The keyword arguments a handler receives, characterized pointwise: a key
bound in the registered defaults maps to the inbound value when present and
to the default otherwise; a key not bound in the defaults is absent. -/
theorem dlookup_scoped_kwargs (p defaults : Dict) (k : String) :
    dlookup (scoped_kwargs p defaults) k =
      (dlookup defaults k).map (fun v => (dlookup p k).getD v) := by
  induction defaults with
  | nil => simp [scoped_kwargs, dlookup]
  | cons kv t ih =>
      obtain ⟨k1, v1⟩ := kv
      by_cases h : k1 = k
      · simp [scoped_kwargs, dlookup, h]
      · simpa [scoped_kwargs, dlookup, h] using ih

/-- A key is found by `dlookup` exactly when it occurs among the dict's keys. -/
theorem dlookup_isSome_iff (d : Dict) (k : String) :
    (dlookup d k).isSome = true ↔ k ∈ d.map Prod.fst := by
  induction d with
  | nil => simp [dlookup]
  | cons kv t ih =>
      obtain ⟨k1, v1⟩ := kv
      by_cases h : k1 = k
      · subst h
        simp [dlookup]
      · have h2 : ¬ k = k1 := fun hh => h hh.symm
        simp [dlookup, h, h2, ih]

/-- Membership in `dict_compare`'s `modified` component: a `(received,
expected)` pair appears for `k` exactly when `k` is bound in both dicts and
the two bound values differ under Python equality. -/
theorem mem_dict_compare_modified (d1 d2 : Dict) (k : String) (rv ev : JValue) :
    (k, (rv, ev)) ∈ (dict_compare d1 d2).2.2.1 ↔
      dlookup d1 k = some rv ∧ dlookup d2 k = some ev ∧ pyEq rv ev = false := by
  constructor
  · intro h
    simp only [dict_compare] at h
    obtain ⟨k0, hk0, heq⟩ := List.mem_map.1 h
    obtain ⟨hshared, hdiff⟩ := List.mem_filter.1 hk0
    obtain ⟨hmem1, hcont2⟩ := List.mem_filter.1 hshared
    injection heq with h1 h23
    injection h23 with h2 h3
    subst h1
    obtain ⟨x1, hx1⟩ := Option.isSome_iff_exists.1 ((dlookup_isSome_iff d1 k0).2 hmem1)
    obtain ⟨x2, hx2⟩ := Option.isSome_iff_exists.1
      ((dlookup_isSome_iff d2 k0).2 (List.elem_iff.1 hcont2))
    refine ⟨?_, ?_, ?_⟩
    · rw [hx1, ← h2, hx1]; rfl
    · rw [hx2, ← h3, hx2]; rfl
    · rw [← h2, ← h3]
      simpa using hdiff
  · rintro ⟨h1, h2, hne⟩
    simp only [dict_compare]
    refine List.mem_map.2 ⟨k, List.mem_filter.2 ⟨List.mem_filter.2 ⟨?_, ?_⟩, ?_⟩, ?_⟩
    · exact (dlookup_isSome_iff d1 k).1 (by simp [h1])
    · exact List.elem_iff.2 ((dlookup_isSome_iff d2 k).1 (by simp [h2]))
    · simp [h1, h2, hne]
    · simp [h1, h2]
/-! ## Claim theorems -/

/-- C7: server construction fails with the `ValueError` "Port number must be
between 49152 and 65535" if and only if the configured port lies outside
`[49152, 65535]`; for every port inside the range construction succeeds. -/
theorem port_range_validation (signals : List (String × Dict)) (port : Int)
    (requires : Dict) (instance_id : Int) :
    (SocketServer_init signals port requires instance_id =
        Except.error "Port number must be between 49152 and 65535" ↔
      (port < 49152 ∨ port > 65535))
    ∧ ((∃ st, SocketServer_init signals port requires instance_id = Except.ok st) ↔
      (49152 ≤ port ∧ port ≤ 65535)) := by
  by_cases h : port < 49152 ∨ port > 65535 <;>
    constructor <;> simp [SocketServer_init, h] <;> omega

/-- C8: decoding inverts encoding on every message envelope — for the
client-side encode and for the server-side reply encode alike — and the
receiver recovers exactly the signal and params that were sent; no size
condition appears anywhere on the path, so this holds below and above any
purported compression threshold. -/
theorem decode_encode_roundtrip (signal : String) (params : Dict)
    (rsignal : String) (rparams : Dict) (request_id : JValue)
    (freshUuid timestamp : String) (instance_id : Int) (appName : String)
    (extra : List Dict) :
    decode_payload (SocketClient_send_wire signal params) =
      some [("signal", JValue.str signal), ("params", JValue.obj params)]
    ∧ (decode_payload (SocketClient_send_wire signal params)).map
        (fun d => dlookup d "signal") = some (some (JValue.str signal))
    ∧ (decode_payload (SocketClient_send_wire signal params)).map
        (fun d => dlookup d "params") = some (some (JValue.obj params))
    ∧ decode_payload (SocketServer_send rsignal rparams request_id freshUuid
        timestamp instance_id appName extra) =
      some (dict_update [("signal", JValue.str rsignal), ("params", JValue.obj rparams)]
        [("__socket_metadata", JValue.obj (get_metadata request_id freshUuid timestamp
          instance_id appName extra))]) :=
  ⟨rfl, rfl, rfl, rfl⟩

/-- C10: when `SocketClient.send` returned no result (timeout, refused
connection, or any send/receive failure), `get_server_info` raises a
`TypeError` to its caller while subscripting the absent reply. -/
theorem get_server_info_none_typeerror :
    get_server_info none = Except.error PyExc.typeError := rfl

/-- C3 (amended): the receive-side decode attempts decompression and parses
the decompressed bytes; it succeeds exactly on zlib-compressed well-formed
object payloads and there is no raw-parse fallback, so an uncompressed
payload always fails. -/
theorem decode_payload_isSome_iff (b : Bytes) :
    (decode_payload b).isSome = true ↔ ∃ d, b = Bytes.compressed (Bytes.json d) := by
  cases b with
  | json d => simp [decode_payload, zlib_decompress]
  | junk s => simp [decode_payload, zlib_decompress]
  | compressed inner =>
      cases inner with
      | json d => simp [decode_payload, zlib_decompress, json_loads]
      | junk s => simp [decode_payload, zlib_decompress, json_loads]
      | compressed i2 => simp [decode_payload, zlib_decompress, json_loads]

/-- C3 counterexample: an uncompressed but well-formed payload — raw JSON
bytes that a raw parse accepts, as the second conjunct shows — fails to
decode, because the decode path is `json.loads(zlib.decompress(...))` with
no fallback to parsing the raw bytes. -/
theorem decode_rejects_raw_payload :
    decode_payload (Bytes.json [("signal", JValue.str "PING"),
        ("params", JValue.obj [])]) = none
    ∧ json_loads (Bytes.json [("signal", JValue.str "PING"),
        ("params", JValue.obj [])]) =
      some [("signal", JValue.str "PING"), ("params", JValue.obj [])] :=
  ⟨rfl, rfl⟩

/-- C2 (amended): every outgoing message — server reply or client send — is
zlib-compressed unconditionally; there is no 1024-byte threshold and no
uncompressed send path, and the metadata dict carries no "compressed" key at
all. -/
theorem send_always_compresses (signal : String) (params : Dict)
    (request_id : JValue) (freshUuid timestamp : String) (instance_id : Int)
    (appName : String) (extra : List Dict) (csignal : String) (cparams : Dict) :
    SocketServer_send signal params request_id freshUuid timestamp instance_id
        appName extra =
      Bytes.compressed (json_dumps (dict_update
        [("signal", JValue.str signal), ("params", JValue.obj params)]
        [("__socket_metadata", JValue.obj (get_metadata request_id freshUuid
          timestamp instance_id appName extra))]))
    ∧ (∀ d : Dict, SocketServer_send signal params request_id freshUuid timestamp
        instance_id appName extra ≠ Bytes.json d)
    ∧ SocketClient_send_wire csignal cparams =
      Bytes.compressed (json_dumps [("signal", JValue.str csignal),
        ("params", JValue.obj cparams)])
    ∧ (∀ d : Dict, SocketClient_send_wire csignal cparams ≠ Bytes.json d)
    ∧ dlookup (get_metadata request_id freshUuid timestamp instance_id appName extra)
        "compressed" = none
    ∧ dlookup (generate_metadata request_id freshUuid timestamp instance_id appName)
        "compressed" = none := by
  refine ⟨rfl, ?_, rfl, ?_, rfl, rfl⟩
  · intro d h
    simp [SocketServer_send, zlib_compress, json_dumps] at h
  · intro d h
    simp [SocketClient_send_wire, zlib_compress, json_dumps] at h

/-- C2 counterexample: a concrete reply whose serialized size is far below
the 1024-byte threshold is nevertheless sent zlib-compressed, and its
metadata has no "compressed" key — so the flag is neither set per threshold
nor `false` on the uncompressed path the claim describes. -/
theorem small_payload_still_compressed :
    (json_dumps_str (JValue.obj (dict_update
        [("signal", JValue.str ERROR_SIGNAL_IGNORED),
         ("params", JValue.obj [("message", JValue.str "Ignoring signal from self")])]
        [("__socket_metadata", JValue.obj
          (get_metadata JValue.null "u2" "t2" 5 "AdaptiveUI" []))]))).length ≤ 1024
    ∧ SocketServer_send ERROR_SIGNAL_IGNORED
        [("message", JValue.str "Ignoring signal from self")]
        JValue.null "u2" "t2" 5 "AdaptiveUI" [] =
      Bytes.compressed (Bytes.json (dict_update
        [("signal", JValue.str ERROR_SIGNAL_IGNORED),
         ("params", JValue.obj [("message", JValue.str "Ignoring signal from self")])]
        [("__socket_metadata", JValue.obj
          (get_metadata JValue.null "u2" "t2" 5 "AdaptiveUI" []))]))
    ∧ (∀ d : Dict, SocketServer_send ERROR_SIGNAL_IGNORED
        [("message", JValue.str "Ignoring signal from self")]
        JValue.null "u2" "t2" 5 "AdaptiveUI" [] ≠ Bytes.json d)
    ∧ dlookup (get_metadata JValue.null "u2" "t2" 5 "AdaptiveUI" []) "compressed" =
        none := by
  refine ⟨by decide, rfl, ?_, rfl⟩
  intro d h
  simp [SocketServer_send, zlib_compress, json_dumps] at h

/-- C9: `SocketClient.send` mutates the caller's `params` mapping in place —
afterwards it binds `__socket_metadata` to the freshly generated metadata and
`__socket_requires` to the client's requirements, every other key unchanged —
and a call that omits `params` operates on the function's shared mutable
default dict, which retains the mutation for the next such call. -/
theorem send_mutates_caller_params (p meta requires : Dict)
    (st : ClientSendState) (m2 r2 : Dict) :
    dlookup (SocketClient_send_params p meta requires) "__socket_metadata" =
      some (JValue.obj meta)
    ∧ dlookup (SocketClient_send_params p meta requires) "__socket_requires" =
      some (JValue.obj requires)
    ∧ (∀ k, k ≠ "__socket_metadata" → k ≠ "__socket_requires" →
        dlookup (SocketClient_send_params p meta requires) k = dlookup p k)
    ∧ (SocketClient_send_model st none m2 r2).2.defaultParams =
      (SocketClient_send_model st none m2 r2).1
    ∧ (SocketClient_send_model st (some p) meta requires).1 =
      SocketClient_send_params p meta requires := by
  refine ⟨?_, ?_, ?_, rfl, rfl⟩
  · rw [SocketClient_send_params,
      dlookup_dictSet_ne _ _ _ _ (by decide), dlookup_dictSet_self]
  · rw [SocketClient_send_params, dlookup_dictSet_self]
  · intro k h1 h2
    rw [SocketClient_send_params, dlookup_dictSet_ne _ _ _ _ h2,
      dlookup_dictSet_ne _ _ _ _ h1]
/-- C5: any inbound message whose metadata instance id equals the server's
own instance id is answered `ERROR_SIGNAL_IGNORED` and no handler is
invoked, whatever the requested signal and whatever the requirements
descriptor. -/
theorem self_origin_shortcircuit (st : ServerState) (d p m : Dict)
    (hp : dlookup d "params" = some (JValue.obj p))
    (hm : dlookup p "__socket_metadata" = some (JValue.obj m))
    (hid : dlookup m "instance_id" = some (JValue.num st.instance_id)) :
    (handle_client st (zlib_compress (json_dumps d))).reply =
      some (ERROR_SIGNAL_IGNORED, ReplyMsg.ignoringSelf,
        (dlookup p "request_id").getD JValue.null)
    ∧ (handle_client st (zlib_compress (json_dumps d))).invoked = none := by
  have hso : self_origin_check p st.instance_id = some true := by
    simp [self_origin_check, hm, hid, pyEq]
  constructor <;>
    simp [handle_client, decode_payload, zlib_compress, zlib_decompress,
      json_dumps, json_loads, hp, hso]

/-- C5 witness: a server with instance id 77 and non-matching requirements
receiving signal "PING" stamped with its own instance id replies
`ERROR_SIGNAL_IGNORED`. -/
theorem self_origin_shortcircuit_witness :
    (handle_client ⟨[], [("version", JValue.str "1.0")], 77⟩
        (zlib_compress (json_dumps [("signal", JValue.str "PING"),
          ("params", JValue.obj [("__socket_metadata",
            JValue.obj [("instance_id", JValue.num 77)])])]))).reply =
      some (ERROR_SIGNAL_IGNORED, ReplyMsg.ignoringSelf, JValue.null) := by
  have h := (self_origin_shortcircuit ⟨[], [("version", JValue.str "1.0")], 77⟩
    [("signal", JValue.str "PING"),
     ("params", JValue.obj [("__socket_metadata",
       JValue.obj [("instance_id", JValue.num 77)])])]
    [("__socket_metadata", JValue.obj [("instance_id", JValue.num 77)])]
    [("instance_id", JValue.num 77)] rfl rfl rfl).1
  exact h.trans rfl

/-- C6: a registered signal's handler is invoked with exactly the keyword
arguments whose keys appear in its registered defaults — the inbound value
when present, the default otherwise — and keys absent from the defaults
(including the injected `__socket_metadata` and `__socket_requires`) are
never passed. -/
theorem handler_param_scoping (st : ServerState) (d p : Dict) (s : String)
    (defaults : Dict)
    (hp : dlookup d "params" = some (JValue.obj p))
    (hself : self_origin_check p st.instance_id = some false)
    (hreq : pyEq ((dlookup p "__socket_requires").getD (JValue.obj []))
        (JValue.obj st.requires) = true)
    (hsig : dlookup d "signal" = some (JValue.str s))
    (hfetch : s ≠ FETCH_SOCKET_METADATA)
    (hreg : dlookup st.signals s = some defaults) :
    (handle_client st (zlib_compress (json_dumps d))).invoked =
      some (s, scoped_kwargs p defaults)
    ∧ (∀ k, dlookup (scoped_kwargs p defaults) k =
        (dlookup defaults k).map (fun v => (dlookup p k).getD v)) := by
  refine ⟨?_, fun k => dlookup_scoped_kwargs p defaults k⟩
  simp [handle_client, decode_payload, zlib_compress, zlib_decompress,
    json_dumps, json_loads, hp, hself, hreq, hsig, hreg, pyEq, hfetch]

/-- C6 witness: defaults `{a: 1, b: 2}` with inbound params `{a: 5, c: 99}`
(plus the injected keys) invoke the handler with exactly `{a: 5, b: 2}`. -/
theorem handler_param_scoping_witness :
    (handle_client ⟨[("apply_theme", [("a", JValue.num 1), ("b", JValue.num 2)])],
        [], 99⟩
      (zlib_compress (json_dumps [("signal", JValue.str "apply_theme"),
        ("params", JValue.obj [("a", JValue.num 5), ("c", JValue.num 99),
          ("__socket_metadata", JValue.obj [("instance_id", JValue.num 7)]),
          ("__socket_requires", JValue.obj [])])]))).invoked =
      some ("apply_theme", [("a", JValue.num 5), ("b", JValue.num 2)]) := by
  have h := (handler_param_scoping
    ⟨[("apply_theme", [("a", JValue.num 1), ("b", JValue.num 2)])], [], 99⟩
    [("signal", JValue.str "apply_theme"),
     ("params", JValue.obj [("a", JValue.num 5), ("c", JValue.num 99),
       ("__socket_metadata", JValue.obj [("instance_id", JValue.num 7)]),
       ("__socket_requires", JValue.obj [])])]
    [("a", JValue.num 5), ("c", JValue.num 99),
     ("__socket_metadata", JValue.obj [("instance_id", JValue.num 7)]),
     ("__socket_requires", JValue.obj [])]
    "apply_theme" [("a", JValue.num 1), ("b", JValue.num 2)]
    rfl (by decide) (by decide) rfl (by decide) rfl).1
  exact h.trans rfl

/-- C4 (amended): an inbound message that passes the self-origin filter and
whose `__socket_requires` dict is not equal to the server's configured
requirements is answered `ERROR_REQUIREMENTS_MISMATCH` and no handler runs;
the reported diff contains a `(received, expected)` pair exactly for each
key bound in both dicts with differing values — a key only added or removed
triggers the mismatch but contributes no pair to the diff. -/
theorem requirements_mismatch_reply (st : ServerState) (d p r1 : Dict)
    (hp : dlookup d "params" = some (JValue.obj p))
    (hself : self_origin_check p st.instance_id = some false)
    (hreqv : dlookup p "__socket_requires" = some (JValue.obj r1))
    (hne : pyEq (JValue.obj r1) (JValue.obj st.requires) = false) :
    (handle_client st (zlib_compress (json_dumps d))).reply =
      some (ERROR_REQUIREMENTS_MISMATCH,
        ReplyMsg.mismatchMsg (dict_compare r1 st.requires).2.2.1,
        (dlookup p "request_id").getD JValue.null)
    ∧ (handle_client st (zlib_compress (json_dumps d))).invoked = none
    ∧ (∀ k rv ev, (k, (rv, ev)) ∈ (dict_compare r1 st.requires).2.2.1 ↔
        dlookup r1 k = some rv ∧ dlookup st.requires k = some ev ∧
          pyEq rv ev = false) := by
  refine ⟨?_, ?_, fun k rv ev => mem_dict_compare_modified r1 st.requires k rv ev⟩ <;>
    simp [handle_client, decode_payload, zlib_compress, zlib_decompress,
      json_dumps, json_loads, hp, hself, hreqv, hne]

/-- C4 witness: the spec's example — client requirements `{version: "1.0.0"}`
against server requirements `{version: "1.1.0"}` — yields
`ERROR_REQUIREMENTS_MISMATCH` with diff `{version: ("1.0.0", "1.1.0")}`. -/
theorem requirements_mismatch_reply_witness :
    (handle_client ⟨[], [("version", JValue.str "1.1.0")], 99⟩
        (zlib_compress (json_dumps [("signal", JValue.str "PING"),
          ("params", JValue.obj [("__socket_metadata",
             JValue.obj [("instance_id", JValue.num 7)]),
           ("__socket_requires", JValue.obj [("version", JValue.str "1.0.0")])])]))).reply =
      some (ERROR_REQUIREMENTS_MISMATCH,
        ReplyMsg.mismatchMsg [("version", (JValue.str "1.0.0", JValue.str "1.1.0"))],
        JValue.null) := by
  have h := (requirements_mismatch_reply ⟨[], [("version", JValue.str "1.1.0")], 99⟩
    [("signal", JValue.str "PING"),
     ("params", JValue.obj [("__socket_metadata",
        JValue.obj [("instance_id", JValue.num 7)]),
      ("__socket_requires", JValue.obj [("version", JValue.str "1.0.0")])])]
    [("__socket_metadata", JValue.obj [("instance_id", JValue.num 7)]),
     ("__socket_requires", JValue.obj [("version", JValue.str "1.0.0")])]
    [("version", JValue.str "1.0.0")]
    rfl (by decide) rfl (by decide)).1
  exact h.trans rfl

/-- C4 counterexample: with client requirements `{}` against server
requirements `{version: "1.1.0"}`, the key `version` differs (present only
on the expected side, as the last two conjuncts record) and the server does
reply `ERROR_REQUIREMENTS_MISMATCH` — but the reported diff is empty: the
differing key has no `(received, expected)` pair. -/
theorem requirements_diff_omits_removed_key :
    (handle_client ⟨[], [("version", JValue.str "1.1.0")], 99⟩
        (SocketClient_send_wire "PING" (SocketClient_send_params []
          (generate_metadata JValue.null "u1" "t0" 7 "AdaptiveUI") []))).reply =
      some (ERROR_REQUIREMENTS_MISMATCH, ReplyMsg.mismatchMsg [], JValue.null)
    ∧ dlookup [("version", JValue.str "1.1.0")] "version" = some (JValue.str "1.1.0")
    ∧ dlookup ([] : Dict) "version" = none :=
  ⟨rfl, rfl, rfl⟩

/-- C1 (code divergence, evaluated at the failing input): the standard client
stores its request id inside `params["__socket_metadata"]["request_id"]`
(first conjunct), but `handle_client` passes the top-level
`params.get("request_id")` — absent, hence `None` — to `_get_metadata`,
which therefore draws a fresh uuid: the reply metadata's `request_id` is the
server-side fresh uuid (third conjunct), a different string from the request
id the client placed in its outgoing message (fourth conjunct). -/
theorem fetch_reply_request_id_is_fresh :
    dlookup (generate_metadata JValue.null "client-uuid-1111" "t0" 7 "AdaptiveUI")
        "request_id" = some (JValue.str "client-uuid-1111")
    ∧ handle_reply_metadata ⟨[], [], 424242⟩
        (SocketClient_send_wire FETCH_SOCKET_METADATA (SocketClient_send_params []
          (generate_metadata JValue.null "client-uuid-1111" "t0" 7 "AdaptiveUI") []))
        "server-uuid-9999" "t1" "AdaptiveUI" [] =
      some (get_metadata JValue.null "server-uuid-9999" "t1" 424242 "AdaptiveUI" [])
    ∧ (handle_reply_metadata ⟨[], [], 424242⟩
        (SocketClient_send_wire FETCH_SOCKET_METADATA (SocketClient_send_params []
          (generate_metadata JValue.null "client-uuid-1111" "t0" 7 "AdaptiveUI") []))
        "server-uuid-9999" "t1" "AdaptiveUI" []).map
        (fun m => dlookup m "request_id") =
      some (some (JValue.str "server-uuid-9999"))
    ∧ "server-uuid-9999" ≠ "client-uuid-1111" :=
  ⟨rfl, rfl, rfl, by decide⟩
